import Mathlib

/-!
Shallow embedding of the cc-discord-rpc scripts (scripts/presence.py and
scripts/statusline.py) and proofs about them.

Conventions of the embedding:
- The persisted JSON session record is `StateRec`: a field whose key is absent
  from the dict is `none`.  The Python truthiness test `not state` on a dict is
  `StateRec.isEmpty` (all keys absent).
- Machine time is `Int` seconds (the scripts use `int(time.time())`); floats
  that carry exact money/token ratios are `Rat`.
- File-system and external-service effects are explicit: the environment
  supplies what a read produced or whether a write/connect/publish succeeded,
  and each operation returns the effects it performed.
- A Python function that can raise returns `Except PyExc`; an exception that a
  caller does not catch is an `Except.error` reaching the top level.
-/

namespace CCRPC

/-- Token/cost block written by statusline.py into `state["tokens"]`. -/
structure TokenRec where
  input : Int
  output : Int
  cache_read : Int
  cache_write : Int
  cost : Rat
  simple_cost : Rat
deriving DecidableEq

/-- The persisted session record (state.json). `none` means the key is absent
from the JSON object. -/
structure StateRec where
  session_start : Option Int := none
  project : Option String := none
  tool : Option String := none
  last_update : Option Int := none
  model : Option String := none
  model_id : Option String := none
  tokens : Option TokenRec := none
  statusline_update : Option Int := none
deriving DecidableEq

/-- The empty record `{}` (no active session). -/
def StateRec.empty : StateRec := {}

/-- Python truthiness of the record: `not state` holds exactly when the dict
has no keys. -/
def StateRec.isEmpty (s : StateRec) : Bool :=
  s.session_start.isNone && s.project.isNone && s.tool.isNone &&
  s.last_update.isNone && s.model.isNone && s.model_id.isNone &&
  s.tokens.isNone && s.statusline_update.isNone

/-- Python truthiness of `state.get(key)` for an integer field: `None` and `0`
are falsy. -/
def truthyInt : Option Int → Bool
  | none => false
  | some n => n != 0

/-- The single Python exception class this development needs to distinguish:
`OSError` (of which `IOError` is an alias). -/
inductive PyExc
  | osError
deriving DecidableEq

/-! ## State Store (read_state / write_state) -/

/-- What reading state.json can find: the file is missing, `read_text` raises
`IOError`/`OSError`, `read_text` raises `UnicodeDecodeError` because the bytes
are not valid UTF-8, `json.loads` raises `JSONDecodeError`, or the content
parses to a record. -/
inductive StateFileSt
  | missing
  | unreadable
  | undecodable
  | badJson
  | parsed (r : StateRec)

/-- The exception classes the body of read_state's try block can raise. -/
inductive ReadExc
  | ioError
  | unicodeDecodeError
  | jsonDecodeError
deriving DecidableEq

/-- Whether `except (json.JSONDecodeError, IOError)` (presence.py line 59;
statusline.py line 48 names OSError, of which IOError is an alias) matches
the raised class: `UnicodeDecodeError` derives from `ValueError`, which is
neither, so it is not caught. -/
def readCaught : ReadExc → Bool
  | .ioError => true
  | .jsonDecodeError => true
  | .unicodeDecodeError => false

/-- The except-clause outcome for an exception the try body raised: a caught
class falls through to `return {}`, anything else propagates to the caller. -/
def readDispatch (e : ReadExc) : Except ReadExc StateRec :=
  if readCaught e then Except.ok StateRec.empty else Except.error e

/-- read_state (presence.py lines 54-61, statusline.py lines 43-50): a missing
file short-circuits to `{}`; otherwise the try body either returns the parsed
record or raises, and the raised class goes through the except clause -
`IOError`/`OSError` and `JSONDecodeError` are swallowed into `{}`, while a
`UnicodeDecodeError` from undecodable bytes propagates. -/
def read_state : StateFileSt → Except ReadExc StateRec
  | .missing => Except.ok StateRec.empty
  | .unreadable => readDispatch ReadExc.ioError
  | .undecodable => readDispatch ReadExc.unicodeDecodeError
  | .badJson => readDispatch ReadExc.jsonDecodeError
  | .parsed r => Except.ok r

/-- write_state as presence.py lines 64-67 defines it: `mkdir` plus
`write_text` with no try/except, so a failing backing-store write raises
`OSError` to the caller.  `writeOk` is whether the directory and file are
writable. -/
def write_state (writeOk : Bool) (st : StateRec) : Except PyExc StateRec :=
  if writeOk then Except.ok st else Except.error PyExc.osError

/-- write_state as statusline.py lines 53-59 defines it: the same write
wrapped in `try/except OSError`, returning normally either way; the Bool
reports whether the warning was logged. -/
def statusline_write_state (writeOk : Bool) (st : StateRec) : StateRec × Bool :=
  if writeOk then (st, false) else (st, true)

/-- Exit status of a short-lived command process: an `Except.error` that no
handler caught terminates CPython with a traceback and status 1. -/
def commandExitCode {α : Type} : Except PyExc α → Int
  | .ok _ => 0
  | .error _ => 1

/-! ## Singleton Guard (get_daemon_pid) -/

/-- Outcome of the POSIX liveness probe `os.kill(pid, 0)`: returns normally,
raises `ProcessLookupError` (no such process), or raises `PermissionError`. -/
inductive ProbeResult
  | ok
  | noSuchProcess
  | permissionDenied
deriving DecidableEq

/-- What the PID file holds: absent, unreadable (read raises `IOError`), or
some text content. -/
inductive PidFileSt
  | missing
  | unreadable
  | content (text : String)
deriving DecidableEq

/-- Digit-string value, `none` unless the list is nonempty and all digits. -/
def digitsVal (cs : List Char) : Option Nat :=
  if !cs.isEmpty && cs.all Char.isDigit then
    some (cs.foldl (fun a c => a * 10 + (c.toNat - 48)) 0)
  else none

/-- Python `int(s.strip())`: surrounding whitespace stripped, an optional
sign, then a nonempty run of decimal digits; anything else raises
`ValueError` (here: `none`). -/
def pyParseInt (s : String) : Option Int :=
  match s.trim.toList with
  | '-' :: cs => (digitsVal cs).map (fun n => -(n : Int))
  | '+' :: cs => (digitsVal cs).map (fun n => (n : Int))
  | cs => (digitsVal cs).map (fun n => (n : Int))

/-- get_daemon_pid (presence.py lines 70-90), POSIX branch: absent file is
`None`; `int(...)` failure, a read failure, `ProcessLookupError` and
`PermissionError` are all caught and fall through to `return None`; a live
probe returns the pid.  The second component is the PID file afterwards: the
function performs no unlink, so it is returned unchanged. -/
def get_daemon_pid (file : PidFileSt) (probe : Int → ProbeResult) :
    Option Int × PidFileSt :=
  match file with
  | .missing => (none, file)
  | .unreadable => (none, file)
  | .content s =>
    match pyParseInt s with
    | none => (none, file)
    | some pid =>
      match probe pid with
      | .ok => (some pid, file)
      | .noSuchProcess => (none, file)
      | .permissionDenied => (none, file)

/-! ## Command handlers (cmd_start / cmd_update) -/

/-- State transform of cmd_start (presence.py lines 232-241): `session_start`
is set to `now` only when absent or falsy, then `project`, `last_update` and
`tool` are stamped unconditionally. -/
def cmd_start_state (project_name : String) (now : Int) (st : StateRec) :
    StateRec :=
  let st1 := if truthyInt st.session_start then st
             else { st with session_start := some now }
  { st1 with project := some project_name, last_update := some now,
             tool := some "" }

/-- State transform of cmd_update (presence.py lines 282-289): an empty state
returns untouched; otherwise `tool` and `last_update` are stamped. -/
def cmd_update_state (tool_name : String) (now : Int) (st : StateRec) :
    StateRec :=
  if st.isEmpty then st
  else { st with tool := some tool_name, last_update := some now }

/-- cmd_update with its write: on empty state it returns before any write
(the Bool is whether write_state ran); otherwise it calls presence.py
write_state, whose failure propagates. -/
def cmd_update (tool_name : String) (now : Int) (st : StateRec)
    (writeOk : Bool) : Except PyExc (StateRec × Bool) :=
  if st.isEmpty then Except.ok (st, false)
  else
    match write_state writeOk
        { st with tool := some tool_name, last_update := some now } with
    | .ok st2 => Except.ok (st2, true)
    | .error e => Except.error e

/-- Folding a list of start commands (project name, time) over the state. -/
def runStarts : List (String × Int) → StateRec → StateRec
  | [], st => st
  | (p, t) :: rest, st => runStarts rest (cmd_start_state p t st)

/-- Folding a list of update commands (tool name, time) over the state. -/
def runUpdates : List (String × Int) → StateRec → StateRec
  | [], st => st
  | (tool, t) :: rest, st => runUpdates rest (cmd_update_state tool t st)

/-! ## Statusline ingestion (statusline.py main, state merge) -/

/-- The values statusline.py extracts from its stdin JSON, after the
`.get(..., default)` chains: empty string / zero when absent. -/
structure StatusInput where
  model_display : String
  model_id : String
  total_cost : Rat
  total_input : Int
  total_output : Int
  cache_read : Int
  cache_write : Int
deriving DecidableEq

/-- The token/cost merge of statusline.py main (lines 106-128): nothing
happens on an empty state; otherwise `model`/`model_id` are set when nonempty,
`tokens` and `statusline_update` are overwritten, and the state is written.
The Bool is whether write_state ran. -/
def statusline_merge (d : StatusInput) (st : StateRec) (now : Int) :
    StateRec × Bool :=
  if st.isEmpty then (st, false)
  else
    let st1 := if d.model_display != "" then { st with model := some d.model_display } else st
    let st2 := if d.model_id != "" then { st1 with model_id := some d.model_id } else st1
    let simple_cost : Rat := ((d.total_input * 4 + d.total_output * 12 : Int) : Rat) / 1000000
    ({ st2 with
        tokens := some ⟨d.total_input, d.total_output, d.cache_read,
                        d.cache_write, d.total_cost, simple_cost⟩,
        statusline_update := some now }, true)

/-! ## Statusline formatting -/

/-- Fixed-point rendering of the exact nonnegative fraction `num / den` with
`d` digits after the point, rounding half to even, as Python `f"{x:.df}"`
renders a float (every value the claims format is decimal-exact, so the exact
fraction and the nearest double round to the same digits). -/
def fmtFrac (num den d : Nat) : String :=
  let scaled := num * 10 ^ d
  let q := scaled / den
  let r := scaled % den
  let m := if 2 * r < den then q
           else if den < 2 * r then q + 1
           else if q % 2 = 0 then q else q + 1
  let fpStr := toString (m % 10 ^ d)
  toString (m / 10 ^ d) ++ "." ++
    String.mk (List.replicate (d - fpStr.length) '0') ++ fpStr

/-- format_tokens (statusline.py lines 62-68): the M suffix and division by
1,000,000 from count 1,000,000 up, the k suffix and division by 1,000 from
count 1,000 up, plain decimal below. -/
def format_tokens (count : Nat) : String :=
  if count ≥ 1000000 then fmtFrac count 1000000 1 ++ "M"
  else if count ≥ 1000 then fmtFrac count 1000 1 ++ "k"
  else toString count

/-- The cost string of statusline.py line 135, the dollar cost given as the
exact fraction `num / den`: two decimals when the cost is at least one cent
(`num / den ≥ 1/100`, i.e. `den ≤ 100 * num`), three otherwise. -/
def cost_str (num den : Nat) : String :=
  if den ≤ 100 * num then "$" ++ fmtFrac num den 2
  else "$" ++ fmtFrac num den 3

/-! ## Presence Daemon Loop (run_daemon) -/

/-- The idle threshold of presence.py line 43: fifteen minutes in seconds. -/
def IDLE_TIMEOUT : Int := 15 * 60

/-- The tool-to-display table of presence.py lines 30-40. -/
def TOOL_DISPLAY : String → Option String
  | "Edit" => some "Editing"
  | "Write" => some "Writing"
  | "Read" => some "Reading"
  | "Bash" => some "Running command"
  | "Glob" => some "Searching files"
  | "Grep" => some "Searching code"
  | "Task" => some "Delegating task"
  | "WebFetch" => some "Fetching web content"
  | "WebSearch" => some "Researching"
  | _ => none

/-- The change-detection key of presence.py line 190: the `current` dict of
the derived display label and the project, and nothing else. -/
structure Payload where
  details : String
  project : String
deriving DecidableEq

/-- Deriving the payload from the record (presence.py lines 183-190):
`state.get("tool", "")` looked up through TOOL_DISPLAY with default
"Working", and `state.get("project", "Claude Code")`. -/
def derivePayload (st : StateRec) : Payload :=
  { details := (TOOL_DISPLAY (st.tool.getD "")).getD "Working",
    project := st.project.getD "Claude Code" }

/-- The loop-local variables of run_daemon: `connected`, whether `rpc` holds a
client object, and `last_sent` (`none` is the initial `{}`, which no derived
payload ever equals). -/
structure DaemonSt where
  connected : Bool
  rpc : Bool
  last_sent : Option Payload
deriving DecidableEq

/-- External-service and state-store effects one poll tick performed. -/
structure TickEff where
  clearCalls : Nat
  publishCalls : Nat
  wrote : Option StateRec
deriving DecidableEq

/-- The connected part of one poll tick (presence.py lines 161-207): an empty
record sleeps and loops; a record idle for more than IDLE_TIMEOUT is cleared
(best-effort `rpc.clear()` when an rpc object exists, `write_state({})`, reset
of `last_sent`); otherwise the derived payload is compared with `last_sent`
and published only when it differs, a failed publish dropping the connection
and keeping `last_sent` so the change is retried. `pubOk` is whether
`rpc.update` succeeds. -/
def tickConnected (s : DaemonSt) (file : StateRec) (now : Int) (pubOk : Bool) :
    DaemonSt × TickEff :=
  if file.isEmpty then (s, ⟨0, 0, none⟩)
  else if IDLE_TIMEOUT < now - file.last_update.getD 0 then
    ({ s with last_sent := none },
     ⟨if s.rpc then 1 else 0, 0, some StateRec.empty⟩)
  else
    let current := derivePayload file
    if s.last_sent = some current then (s, ⟨0, 0, none⟩)
    else if pubOk then
      ({ s with last_sent := some current }, ⟨0, 1, none⟩)
    else
      ({ s with connected := false, rpc := false }, ⟨0, 1, none⟩)

/-- One iteration of the run_daemon while-loop (presence.py lines 147-207):
a disconnected daemon first attempts to connect (`connectOk`), a failure
backing off until the next tick; on success the same iteration falls through
into the connected body, `file` being what read_state returned this tick. -/
def tick (s : DaemonSt) (file : StateRec) (now : Int)
    (connectOk pubOk : Bool) : DaemonSt × TickEff :=
  if s.connected then tickConnected s file now pubOk
  else if connectOk then
    tickConnected { s with connected := true, rpc := true } file now pubOk
  else (s, ⟨0, 0, none⟩)

/-! ## Shutdown path (signal handler, loop exception dispatch) -/

/-- The exception classes the loop's handlers distinguish: `SystemExit` and
`KeyboardInterrupt` derive from `BaseException` directly, every other raised
error from `Exception`. -/
inductive ExcClass
  | systemExit
  | keyboardInterrupt
  | otherException
deriving DecidableEq

/-- Whether the class is a subclass of Python `Exception` (`SystemExit` and
`KeyboardInterrupt` are not). -/
def isExceptionSubclass : ExcClass → Bool
  | .systemExit => false
  | .keyboardInterrupt => false
  | .otherException => true

/-- How the while-loop leaves or keeps an iteration. -/
inductive LoopExit
  | breakOut
  | continueLoop
  | propagate (e : ExcClass)
deriving DecidableEq

/-- The except-clause dispatch of the run_daemon loop body (presence.py lines
209-213): `except KeyboardInterrupt: break`, `except Exception: log and
continue`; anything else - in particular `SystemExit` - propagates out of the
loop. -/
def loopDispatch (e : ExcClass) : LoopExit :=
  if e = ExcClass.keyboardInterrupt then LoopExit.breakOut
  else if isExceptionSubclass e then LoopExit.continueLoop
  else LoopExit.propagate e

/-- The externally visible effects of the daemon terminating (or not). -/
structure ExitEff where
  pidRemoved : Bool
  clearCalled : Bool
  closeCalled : Bool
  exitCode : Option Int
deriving DecidableEq

/-- run_daemon unwound by the exception class `e` escaping a poll tick
(presence.py lines 209-222): only the `break` of the KeyboardInterrupt clause
reaches the post-loop cleanup that issues `rpc.clear()` and `rpc.close()`; an
exception the clauses do not match unwinds run_daemon past that cleanup, the
atexit hook still removing the PID file on interpreter exit (`SystemExit`
carries status 0, any other escaping error status 1). -/
def daemonExit (rpcPresent : Bool) (e : ExcClass) : ExitEff :=
  match loopDispatch e with
  | .breakOut => ⟨true, rpcPresent, rpcPresent, some 0⟩
  | .continueLoop => ⟨false, false, false, none⟩
  | .propagate ex =>
      ⟨true, false, false, some (if ex = ExcClass.systemExit then 0 else 1)⟩

/-- The SIGTERM/SIGINT handler `shutdown` (presence.py lines 134-139): it
logs, removes the PID file, and calls `sys.exit(0)`, raising `SystemExit`
into whatever point of the poll tick the signal interrupted. -/
def handleTermSignal (rpcPresent : Bool) : ExitEff :=
  { daemonExit rpcPresent ExcClass.systemExit with pidRemoved := true }

/-! ## Concrete records used by witnesses and counterexamples -/

/-- A representative active session record. -/
def sampleState : StateRec :=
  { session_start := some 1000, project := some "myproj", tool := some "",
    last_update := some 1000 }

/-- A representative statusline stdin payload after extraction. -/
def sampleStatus : StatusInput :=
  ⟨"Claude 3.5", "claude-3-5", 1/4, 100, 50, 10, 5⟩

/-- Active record whose tool is the unrecognized "Foo". -/
def cexState1 : StateRec :=
  { session_start := some 0, project := some "p", tool := some "Foo",
    last_update := some 0 }

/-- The same record after an update to the unrecognized tool "Bar". -/
def cexState2 : StateRec :=
  { session_start := some 0, project := some "p", tool := some "Bar",
    last_update := some 0 }

/-- Active record whose tool is "Edit" (label "Editing"). -/
def witState1 : StateRec :=
  { session_start := some 0, project := some "p", tool := some "Edit",
    last_update := some 0 }

/-- The same record after an update to "Read" (label "Reading"). -/
def witState2 : StateRec :=
  { session_start := some 0, project := some "p", tool := some "Read",
    last_update := some 0 }

/-! ## Theorems -/

/-- C1: on SIGTERM/SIGINT the daemon removes the PID record and exits with
status 0, but it does NOT clear the published presence and does NOT close the
connection: the handler raises `SystemExit`, which neither loop except-clause
matches, so run_daemon unwinds past the post-loop `rpc.clear()`/`rpc.close()`
(that cleanup runs only on the KeyboardInterrupt `break` path, shown in the
second conjunct, and the installed SIGINT handler makes that path
unreachable). -/
theorem shutdown_skips_presence_clear (rpcPresent : Bool) :
    handleTermSignal rpcPresent =
      { pidRemoved := true, clearCalled := false, closeCalled := false,
        exitCode := some 0 } ∧
    daemonExit rpcPresent ExcClass.keyboardInterrupt =
      { pidRemoved := true, clearCalled := rpcPresent,
        closeCalled := rpcPresent, exitCode := some 0 } :=
  ⟨rfl, rfl⟩

/-- C2: presence.py write_state has no exception handler, so a failing
backing-store write propagates out of cmd_update uncaught and the command
process exits with status 1 - while statusline.py write_state on the same
failure returns normally and merely logs. -/
theorem write_failure_crashes_command :
    cmd_update "Edit" 1200 sampleState false = Except.error PyExc.osError ∧
    commandExitCode (cmd_update "Edit" 1200 sampleState false) = 1 ∧
    statusline_write_state false sampleState = (sampleState, true) :=
  ⟨rfl, rfl, rfl⟩

/-- C3: one connected poll tick over a non-empty record idle for more than
IDLE_TIMEOUT issues exactly one presence-clear call, writes the empty record
to the state store, and resets the last-published snapshot to empty. -/
theorem idle_tick_clears (s : DaemonSt) (file : StateRec) (now : Int)
    (connectOk pubOk : Bool)
    (hc : s.connected = true) (hr : s.rpc = true)
    (hne : file.isEmpty = false)
    (hidle : IDLE_TIMEOUT < now - file.last_update.getD 0) :
    tick s file now connectOk pubOk =
      ({ s with last_sent := none }, ⟨1, 0, some StateRec.empty⟩) := by
  simp [tick, tickConnected, hc, hr, hne, hidle]

/-- C3 witness: the idle-clear tick evaluated on a concrete stale record. -/
theorem idle_tick_clears_witness :
    tick ⟨true, true, none⟩ sampleState 2000 true true =
      (⟨true, true, none⟩, ⟨1, 0, some StateRec.empty⟩) :=
  idle_tick_clears ⟨true, true, none⟩ sampleState 2000 true true rfl rfl rfl
    (by decide)

/-- Splitting a run of update commands. -/
theorem runUpdates_append (a b : List (String × Int)) (st : StateRec) :
    runUpdates (a ++ b) st = runUpdates b (runUpdates a st) := by
  induction a generalizing st with
  | nil => rfl
  | cons u rest ih =>
    cases u with
    | mk tool t => exact ih (cmd_update_state tool t st)

/-- Updates never touch the project field. -/
theorem runUpdates_project (us : List (String × Int)) (st : StateRec) :
    (runUpdates us st).project = st.project := by
  induction us generalizing st with
  | nil => rfl
  | cons u rest ih =>
    cases u with
    | mk tool t =>
      refine (ih (cmd_update_state tool t st)).trans ?_
      unfold cmd_update_state
      split <;> rfl

/-- Updates never touch the session_start field. -/
theorem runUpdates_session (us : List (String × Int)) (st : StateRec) :
    (runUpdates us st).session_start = st.session_start := by
  induction us generalizing st with
  | nil => rfl
  | cons u rest ih =>
    cases u with
    | mk tool t =>
      refine (ih (cmd_update_state tool t st)).trans ?_
      unfold cmd_update_state
      split <;> rfl

/-- A start command never changes a truthy session_start. -/
theorem cmd_start_state_session (pn : String) (t : Int) (st : StateRec)
    (h : truthyInt st.session_start = true) :
    (cmd_start_state pn t st).session_start = st.session_start := by
  simp [cmd_start_state, h]

/-- A run of start commands never changes a truthy session_start. -/
theorem runStarts_session (ss : List (String × Int)) (st : StateRec)
    (h : truthyInt st.session_start = true) :
    (runStarts ss st).session_start = st.session_start := by
  induction ss generalizing st with
  | nil => rfl
  | cons p rest ih =>
    cases p with
    | mk pn t =>
      have hcs := cmd_start_state_session pn t st h
      have hcs2 : truthyInt (cmd_start_state pn t st).session_start = true := by
        rw [hcs]; exact h
      exact (ih (cmd_start_state pn t st) hcs2).trans hcs

/-- Every start command leaves the project field set. -/
theorem runStarts_project_isSome (ss : List (String × Int)) (st : StateRec)
    (h : st.project.isSome = true) :
    (runStarts ss st).project.isSome = true := by
  induction ss generalizing st with
  | nil => exact h
  | cons p rest ih =>
    cases p with
    | mk pn t => exact ih (cmd_start_state pn t st) (by simp [cmd_start_state])

/-- A record with a project key is not the empty dict. -/
theorem isEmpty_false_of_project_isSome (st : StateRec)
    (h : st.project.isSome = true) : st.isEmpty = false := by
  unfold StateRec.isEmpty
  cases hp : st.project with
  | none => rw [hp] at h; simp at h
  | some p => simp [hp]

/-- C5: for every sequence of at least one start followed by at least one
update, beginning from the empty record at a positive first start time, the
resulting record has tool equal to the last update's tool name and
session_start equal to the value stamped by the first start; no later start
overwrites it. -/
theorem start_update_sequence (p1 : String) (t1 : Int)
    (ss us : List (String × Int)) (tn : String) (tN : Int) (h1 : 0 < t1) :
    (runUpdates (us ++ [(tn, tN)])
        (runStarts ((p1, t1) :: ss) StateRec.empty)).tool = some tn ∧
    (runUpdates (us ++ [(tn, tN)])
        (runStarts ((p1, t1) :: ss) StateRec.empty)).session_start
      = some t1 := by
  have e0 : runStarts ((p1, t1) :: ss) StateRec.empty
      = runStarts ss (cmd_start_state p1 t1 StateRec.empty) := rfl
  have hfirst : (cmd_start_state p1 t1 StateRec.empty).session_start
      = some t1 := rfl
  have htruthy : truthyInt (cmd_start_state p1 t1 StateRec.empty).session_start
      = true := by
    rw [hfirst]
    simp only [truthyInt, bne_iff_ne, ne_eq, decide_eq_true_eq]
    omega
  have hsS : (runStarts ss (cmd_start_state p1 t1 StateRec.empty)).session_start
      = some t1 :=
    (runStarts_session ss _ htruthy).trans hfirst
  have hproj : (runStarts ss
      (cmd_start_state p1 t1 StateRec.empty)).project.isSome = true :=
    runStarts_project_isSome ss _ (by simp [cmd_start_state])
  rw [e0, runUpdates_append]
  have hUproj := runUpdates_project us
    (runStarts ss (cmd_start_state p1 t1 StateRec.empty))
  have hUsession := runUpdates_session us
    (runStarts ss (cmd_start_state p1 t1 StateRec.empty))
  have hUne : (runUpdates us (runStarts ss
      (cmd_start_state p1 t1 StateRec.empty))).isEmpty = false :=
    isEmpty_false_of_project_isSome _ (by rw [hUproj]; exact hproj)
  constructor
  · show (cmd_update_state tn tN _).tool = some tn
    simp [cmd_update_state, hUne]
  · show (cmd_update_state tn tN _).session_start = some t1
    simp [cmd_update_state, hUne, hUsession, hsS]

/-- C5 witness: one start at time 1 then one update with "Edit" at time 2. -/
theorem start_update_sequence_witness :
    (runUpdates ([] ++ [("Edit", 2)])
        (runStarts [("myproj", 1)] StateRec.empty)).tool = some "Edit" ∧
    (runUpdates ([] ++ [("Edit", 2)])
        (runStarts [("myproj", 1)] StateRec.empty)).session_start = some 1 :=
  start_update_sequence "myproj" 1 [] [] "Edit" 2 (by decide)

/-- C6: an update command on the empty record is a no-op for every tool name:
the state stays empty and write_state is never reached. -/
theorem update_on_empty_state_noop (tool_name : String) (now : Int)
    (writeOk : Bool) :
    cmd_update tool_name now StateRec.empty writeOk =
      Except.ok (StateRec.empty, false) :=
  rfl

/-- C7: the liveness check returns a process id exactly when the PID file
exists, its content parses as an integer, and the probe verifies the process
alive; in every other case it returns none, and it leaves the PID file
exactly as it found it (no deletion). -/
theorem get_daemon_pid_live_only (file : PidFileSt)
    (probe : Int → ProbeResult) :
    (get_daemon_pid file probe).2 = file ∧
    ∀ pid : Int, ((get_daemon_pid file probe).1 = some pid ↔
      ∃ s, file = PidFileSt.content s ∧ pyParseInt s = some pid ∧
        probe pid = ProbeResult.ok) := by
  cases file with
  | missing => simp [get_daemon_pid]
  | unreadable => simp [get_daemon_pid]
  | content s =>
    constructor
    · cases h : pyParseInt s with
      | none => simp [get_daemon_pid, h]
      | some pid => cases hp : probe pid <;> simp [get_daemon_pid, h, hp]
    · intro pid
      cases h : pyParseInt s with
      | none => simp [get_daemon_pid, h]
      | some pid2 =>
        cases hp : probe pid2 <;>
          simp [get_daemon_pid, h, hp] <;>
          rintro rfl <;> simp_all

/-- A tick that begins connected skips the connect attempt. -/
theorem tick_of_connected (s : DaemonSt) (f : StateRec) (now : Int)
    (c p : Bool) (h : s.connected = true) :
    tick s f now c p = tickConnected s f now p := by
  simp [tick, h]

/-- Shape of a connected tick over a non-empty, non-idle record: publish
exactly when the derived payload differs from last_sent. -/
theorem tickConnected_shape (s : DaemonSt) (f : StateRec) (now : Int)
    (p : Bool) (he : f.isEmpty = false)
    (hi : ¬ IDLE_TIMEOUT < now - f.last_update.getD 0) :
    tickConnected s f now p =
      if s.last_sent = some (derivePayload f) then (s, ⟨0, 0, none⟩)
      else if p then
        ({ s with last_sent := some (derivePayload f) }, ⟨0, 1, none⟩)
      else
        ({ s with connected := false, rpc := false }, ⟨0, 1, none⟩) := by
  simp [tickConnected, he, hi]

/-- C4 (amended): over two consecutive poll ticks that both begin connected,
on non-empty non-idle records: an unchanged derived (label, project) payload
issues at most one publish call across both ticks; a change of the derived
payload (in particular a tool change whose display label differs) issues
exactly one additional publish call on the second tick; and the token, model
and statusline fields of the record never affect a tick at all. -/
theorem publish_change_detection
    (s0 : DaemonSt) (f1 f2 : StateRec) (t1 t2 : Int) (c1 p1 c2 p2 : Bool)
    (h0c : s0.connected = true)
    (h1e : f1.isEmpty = false) (h2e : f2.isEmpty = false)
    (h1i : ¬ IDLE_TIMEOUT < t1 - f1.last_update.getD 0)
    (h2i : ¬ IDLE_TIMEOUT < t2 - f2.last_update.getD 0)
    (hconn : (tick s0 f1 t1 c1 p1).1.connected = true) :
    (derivePayload f1 = derivePayload f2 →
      (tick s0 f1 t1 c1 p1).2.publishCalls +
        (tick (tick s0 f1 t1 c1 p1).1 f2 t2 c2 p2).2.publishCalls ≤ 1) ∧
    (derivePayload f1 ≠ derivePayload f2 →
      (tick (tick s0 f1 t1 c1 p1).1 f2 t2 c2 p2).2.publishCalls = 1) ∧
    (∀ tok md mid su,
      ({ f1 with tokens := tok, model := md, model_id := mid,
                 statusline_update := su } : StateRec).isEmpty = false →
      tick s0 ({ f1 with tokens := tok, model := md, model_id := mid,
                         statusline_update := su }) t1 c1 p1
        = tick s0 f1 t1 c1 p1) := by
  have hpart3 : ∀ tok md mid su,
      ({ f1 with tokens := tok, model := md, model_id := mid,
                 statusline_update := su } : StateRec).isEmpty = false →
      tick s0 ({ f1 with tokens := tok, model := md, model_id := mid,
                         statusline_update := su }) t1 c1 p1
        = tick s0 f1 t1 c1 p1 := by
    intro tok md mid su hne
    rw [tick_of_connected _ _ _ _ _ h0c, tick_of_connected _ _ _ _ _ h0c]
    rw [tickConnected_shape _ _ _ _ hne h1i,
        tickConnected_shape _ _ _ _ h1e h1i]
    rfl
  rw [tick_of_connected _ _ _ _ _ h0c] at hconn
  rw [tickConnected_shape s0 f1 t1 p1 h1e h1i] at hconn
  refine ⟨?_, ?_, hpart3⟩
  · intro hpq
    by_cases hsent : s0.last_sent = some (derivePayload f1)
    · have e1 : tick s0 f1 t1 c1 p1 = (s0, ⟨0, 0, none⟩) := by
        rw [tick_of_connected _ _ _ _ _ h0c,
            tickConnected_shape s0 f1 t1 p1 h1e h1i, if_pos hsent]
      have e2 : tick s0 f2 t2 c2 p2 = (s0, ⟨0, 0, none⟩) := by
        rw [tick_of_connected _ _ _ _ _ h0c,
            tickConnected_shape s0 f2 t2 p2 h2e h2i,
            if_pos (by rw [hsent, hpq])]
      rw [e1]
      show 0 + (tick s0 f2 t2 c2 p2).2.publishCalls ≤ 1
      rw [e2]
      simp
    · rw [if_neg hsent] at hconn
      cases p1 with
      | false => simp at hconn
      | true =>
        have e1 : tick s0 f1 t1 c1 true
            = ({ s0 with last_sent := some (derivePayload f1) },
               ⟨0, 1, none⟩) := by
          rw [tick_of_connected _ _ _ _ _ h0c,
              tickConnected_shape s0 f1 t1 true h1e h1i, if_neg hsent,
              if_pos rfl]
        have h1c : ({ s0 with
            last_sent := some (derivePayload f1) } : DaemonSt).connected
              = true := h0c
        have e2 : tick ({ s0 with last_sent := some (derivePayload f1) })
            f2 t2 c2 p2
            = ({ s0 with last_sent := some (derivePayload f1) },
               ⟨0, 0, none⟩) := by
          rw [tick_of_connected _ _ _ _ _ h1c,
              tickConnected_shape _ f2 t2 p2 h2e h2i,
              if_pos (by simp [hpq])]
        rw [e1]
        show 1 + (tick ({ s0 with last_sent := some (derivePayload f1) })
            f2 t2 c2 p2).2.publishCalls ≤ 1
        rw [e2]
        simp
  · intro hpq
    by_cases hsent : s0.last_sent = some (derivePayload f1)
    · have e1 : tick s0 f1 t1 c1 p1 = (s0, ⟨0, 0, none⟩) := by
        rw [tick_of_connected _ _ _ _ _ h0c,
            tickConnected_shape s0 f1 t1 p1 h1e h1i, if_pos hsent]
      rw [e1]
      show (tick s0 f2 t2 c2 p2).2.publishCalls = 1
      rw [tick_of_connected _ _ _ _ _ h0c,
          tickConnected_shape s0 f2 t2 p2 h2e h2i,
          if_neg (by rw [hsent]; simpa using hpq)]
      cases p2 <;> simp
    · rw [if_neg hsent] at hconn
      cases p1 with
      | false => simp at hconn
      | true =>
        have e1 : tick s0 f1 t1 c1 true
            = ({ s0 with last_sent := some (derivePayload f1) },
               ⟨0, 1, none⟩) := by
          rw [tick_of_connected _ _ _ _ _ h0c,
              tickConnected_shape s0 f1 t1 true h1e h1i, if_neg hsent,
              if_pos rfl]
        have h1c : ({ s0 with
            last_sent := some (derivePayload f1) } : DaemonSt).connected
              = true := h0c
        rw [e1]
        show (tick ({ s0 with last_sent := some (derivePayload f1) })
            f2 t2 c2 p2).2.publishCalls = 1
        rw [tick_of_connected _ _ _ _ _ h1c,
            tickConnected_shape _ f2 t2 p2 h2e h2i,
            if_neg (by simpa using hpq)]
        cases p2 <;> simp

/-- C4 counterexample to the claim as stated: a tool change between two
unrecognized tools ("Foo" to "Bar", both displayed "Working") across two
consecutive connected non-idle ticks issues NO additional publish call - the
second tick publishes zero times, not exactly one. -/
theorem tool_change_without_publish :
    cexState1.tool ≠ cexState2.tool ∧
    cexState1.isEmpty = false ∧ cexState2.isEmpty = false ∧
    ¬ IDLE_TIMEOUT < 100 - cexState1.last_update.getD 0 ∧
    ¬ IDLE_TIMEOUT < 100 - cexState2.last_update.getD 0 ∧
    (tick ⟨true, true, none⟩ cexState1 100 true true).1.connected = true ∧
    (tick (tick ⟨true, true, none⟩ cexState1 100 true true).1
        cexState2 100 true true).2.publishCalls = 0 := by
  refine ⟨?_, ?_, ?_, ?_, ?_, ?_, ?_⟩ <;> decide

/-- C4 witness: a tool change from "Edit" to "Read" (labels "Editing" and
"Reading") makes the second of two consecutive connected ticks publish
exactly once. -/
theorem publish_change_detection_witness :
    (tick (tick ⟨true, true, none⟩ witState1 100 true true).1
        witState2 100 true true).2.publishCalls = 1 :=
  (publish_change_detection ⟨true, true, none⟩ witState1 witState2 100 100
      true true true true rfl rfl rfl (by decide) (by decide)
      (by decide)).2.1 (by decide)

/-- C8: read_state swallows a missing file, an `IOError`/`OSError` read
failure and a `JSONDecodeError` into the empty record, and returns the parsed
record when the file parses - but on a backing file whose bytes are not valid
UTF-8 it raises: `read_text` throws `UnicodeDecodeError`, a `ValueError` that
neither except clause catches, so the error propagates to the caller instead
of degrading to the empty record the claim promises. -/
theorem read_state_raises_on_undecodable :
    read_state StateFileSt.missing = Except.ok StateRec.empty ∧
    read_state StateFileSt.unreadable = Except.ok StateRec.empty ∧
    read_state StateFileSt.badJson = Except.ok StateRec.empty ∧
    (∀ r : StateRec, read_state (StateFileSt.parsed r) = Except.ok r) ∧
    read_state StateFileSt.undecodable
      = Except.error ReadExc.unicodeDecodeError :=
  ⟨rfl, rfl, rfl, fun _ => rfl, rfl⟩

/-- C9: the statusline merge on a non-empty record leaves session_start,
project, tool and last_update untouched (it only writes model, model_id,
tokens and statusline_update), so token refreshes alone never postpone the
idle timeout. -/
theorem statusline_merge_frame (d : StatusInput) (st : StateRec) (now : Int)
    (h : st.isEmpty = false) :
    ((statusline_merge d st now).1.session_start = st.session_start) ∧
    ((statusline_merge d st now).1.project = st.project) ∧
    ((statusline_merge d st now).1.tool = st.tool) ∧
    ((statusline_merge d st now).1.last_update = st.last_update) := by
  simp only [statusline_merge, h, Bool.false_eq_true, if_false]
  split <;> split <;> simp

/-- C9 witness: the frame property evaluated on a concrete session record and
statusline payload. -/
theorem statusline_merge_frame_witness :
    ((statusline_merge sampleStatus sampleState 5).1.session_start
        = sampleState.session_start) ∧
    ((statusline_merge sampleStatus sampleState 5).1.project
        = sampleState.project) ∧
    ((statusline_merge sampleStatus sampleState 5).1.tool
        = sampleState.tool) ∧
    ((statusline_merge sampleStatus sampleState 5).1.last_update
        = sampleState.last_update) :=
  statusline_merge_frame sampleStatus sampleState 5 rfl

/-- C10: the formatting values of the spec, plus the 1,000 / 1,000,000 and
one-cent thresholds: 12500 renders "12.5k", 2000000 renders "2.0M", cost
0.004 renders "$0.004" and 0.25 renders "$0.25". -/
theorem formatting_values :
    format_tokens 12500 = "12.5k" ∧ format_tokens 2000000 = "2.0M" ∧
    cost_str 4 1000 = "$0.004" ∧ cost_str 25 100 = "$0.25" ∧
    format_tokens 999 = "999" ∧ format_tokens 1000 = "1.0k" ∧
    format_tokens 1000000 = "1.0M" ∧ cost_str 1 100 = "$0.01" := by
  refine ⟨?_, ?_, ?_, ?_, ?_, ?_, ?_, ?_⟩ <;> decide

end CCRPC
